import Mathlib

/-!
Verification of the AI-Financial-Planner backend (src/backend/main.py).

The development shallowly embeds the conversation driver
(get_ollama_response_with_web), the stream relay (generate_ollama_stream),
the prompt builders of the two routes, and the HTTP error mapping of the
/plan-home-purchase endpoint.  The external Ollama runtime is a parameter
(a function from the current conversation to a reply), and the two web
tools are parameters bundled in a ToolImpls record; everything the
repository itself does is translated directly from the Python source.
The unbounded `while True` loop is embedded with an explicit fuel
parameter: an outcome of `outOfFuel` means the Python loop is still
running after that many rounds.
-/

/-- A tool invocation payload produced by the model: `tool_call.function`
in the Python source, with a `.name` and `.arguments` mapping. -/
structure ToolFunction where
  name : String
  arguments : List (String × String)
deriving DecidableEq, Repr

/-- One element of `response.message.tool_calls`. -/
structure ToolCall where
  function : ToolFunction
deriving DecidableEq, Repr

/-- A conversation turn.  Mirrors both the ollama `Message` objects the
driver appends verbatim (role, content, thinking, tool_calls) and the
plain dicts `{'role': 'tool', 'content': ..., 'tool_name': ...}` it
builds for tool results; absent keys are the defaults. -/
structure Message where
  role : String
  content : String := ""
  thinking : Option String := none
  tool_calls : List ToolCall := []
  tool_name : Option String := none
deriving DecidableEq, Repr

/-- The non-streaming reply of `ollama.chat`: the driver only ever reads
`response.message`. -/
structure ChatResponse where
  message : Message
deriving DecidableEq, Repr

/-- The external `web_search` and `web_fetch` capabilities (imported from
the ollama package, not implemented in this repository).  Each takes the
keyword arguments and either returns a result text or raises, modelled
as `Except` with the textual message of the raised exception. -/
structure ToolImpls where
  web_search : List (String × String) → Except String String
  web_fetch : List (String × String) → Except String String

/-- `available_tools = {'web_search': web_search, 'web_fetch': web_fetch}`
followed by `available_tools.get(name)` (line 53 / line 70). -/
def availableTools (impl : ToolImpls) (name : String) :
    Option (List (String × String) → Except String String) :=
  if name = "web_search" then some impl.web_search
  else if name = "web_fetch" then some impl.web_fetch
  else none

/-- The slice bound in `str(result)[:8000 * 4]` (line 76). -/
def truncLimit : Nat := 8000 * 4

/-- Python string slicing `s[:8000 * 4]`: the first `truncLimit`
characters (code points), or the whole string when shorter. -/
def truncateResult (s : String) : String :=
  String.mk (s.data.take truncLimit)

/-- After `for tool_call in response.message.tool_calls:` finishes, the
loop variable `tool_call` (and the assignment to `function_to_call`)
holds the LAST element of the list; the `if function_to_call:` block at
lines 71-78 sits outside the for-loop, so only this last element is ever
dispatched.  `lastCall tc tcs` is that surviving element. -/
def lastCall (tc : ToolCall) (tcs : List ToolCall) : ToolCall :=
  (tc :: tcs).getLast (List.cons_ne_nil tc tcs)

/-- Outcome of running the driver loop with a given amount of fuel.
`answer` is the normal return (`return messages[-1].content`),
`toolFailure` is an uncaught exception raised by a registered tool
(lines 71-76 have no try/except), and `outOfFuel` means the
`while True` loop is still iterating after the given number of rounds
(the source has no round bound).  Each outcome carries the conversation
list as the Python `messages` list stands at that point. -/
inductive DriverOutcome where
  | answer (conv : List Message) (text : String)
  | toolFailure (conv : List Message) (err : String)
  | outOfFuel (conv : List Message)
deriving DecidableEq, Repr

/-- The conversation list carried by an outcome. -/
def DriverOutcome.conversation : DriverOutcome → List Message
  | .answer conv _ => conv
  | .toolFailure conv _ => conv
  | .outOfFuel conv => conv

/-- `get_ollama_response_with_web(messages, model)` (lines 51-82),
with the Ollama runtime abstracted as `model` and the web tools as
`impl`.  One fuel unit is one round (one `ollama.chat` call).  Per round:
the reply message is appended (line 66); if `tool_calls` is empty the
loop breaks and `messages[-1].content` is returned (lines 79-82);
otherwise only the last tool call survives the lookup loop (lines 69-70)
and is dispatched: a registered tool is invoked — its result truncated
and appended as a tool turn (lines 71-76), an exception propagating —
and an unregistered one gets the synthetic `Tool ... not found` turn
(lines 77-78); then the loop repeats. -/
def get_ollama_response_with_web (impl : ToolImpls)
    (model : List Message → ChatResponse) :
    Nat → List Message → DriverOutcome
  | 0, messages => DriverOutcome.outOfFuel messages
  | fuel + 1, messages =>
    match (model messages).message.tool_calls with
    | [] =>
      DriverOutcome.answer (messages ++ [(model messages).message])
        (model messages).message.content
    | tc :: tcs =>
      match availableTools impl (lastCall tc tcs).function.name with
      | some function_to_call =>
        match function_to_call (lastCall tc tcs).function.arguments with
        | Except.ok result =>
          get_ollama_response_with_web impl model fuel
            (messages ++ [(model messages).message,
              { role := "tool", content := truncateResult result,
                tool_name := some (lastCall tc tcs).function.name }])
        | Except.error e =>
          DriverOutcome.toolFailure (messages ++ [(model messages).message]) e
      | none =>
        get_ollama_response_with_web impl model fuel
          (messages ++ [(model messages).message,
            { role := "tool",
              content := "Tool " ++ (lastCall tc tcs).function.name ++ " not found",
              tool_name := some (lastCall tc tcs).function.name }])

/-- One streamed chunk from `ollama.chat(..., stream=True)`; the relay
only reads `chunk.message.content`. -/
structure ChatChunk where
  message : Message
deriving DecidableEq, Repr

/-- `generate_ollama_stream(messages, model)` (lines 37-48): the
generator iterates over the stream and yields `chunk.message.content`
for each chunk, in order.  The model-produced fragment sequence is the
input list; the output list is the fragment sequence the caller
observes, in delivery order. -/
def generate_ollama_stream (chunks : List ChatChunk) : List String :=
  chunks.map (fun chunk => chunk.message.content)

/-- The full answer of a streamed model reply: the in-order
concatenation of the fragments the model emits (spec data model:
concatenation of all chunks in order reconstructs the full answer). -/
def fullModelAnswer (chunks : List ChatChunk) : String :=
  chunks.foldl (fun acc chunk => acc ++ chunk.message.content) ""

/-- The validated /plan-retirement request record (lines 16-25).  The
Python numeric fields are floats rendered by the f-string with the
standard deterministic decimal repr; float arithmetic never happens, so
the fields are embedded as integers with `toString` as the (equally
deterministic) rendering. -/
structure RetirementRequest where
  current_age : Int
  retirement_age : Int
  current_savings : Int
  current_investments : Int
  supplemental_retirement_income : Int
  annual_income : Int
  desired_annual_income_in_retirement : Int
  user_input : String := ""
  model : String := "gemma3:27b"
deriving DecidableEq, Repr

/-- The validated /plan-home-purchase request record (lines 27-34). -/
structure HousePurchaseRequest where
  income : Int
  total_monthly_debt : Int
  total_liquid_assets : Int
  zip_code : String
  credit_score : Int
  user_input : String := ""
  model : String := "gpt-oss:20b"
deriving DecidableEq, Repr

/-- The home-purchase prompt f-string (lines 88-114), with `now` standing
for `datetime.datetime.now().isoformat()`: the only non-record input. -/
def housePrompt (now : String) (request : HousePurchaseRequest) : String :=
  "\n        You are a financial assistant specializing in home purchases. Provide a detailed assessment of whether a potential home buyer can afford a home, and offer personalized recommendations.\n        Please note that the current date is $"
  ++ now
  ++ ".\n        You will also have access to the Internet, please use this to find relevant data like costs of living and housing trends in the zip code. As well as up to date interest rates.\n\n        Here are the buyer\x27s details:\n        - Income: "
  ++ toString request.income
  ++ " per year\n        - Total Monthly Debt: "
  ++ toString request.total_monthly_debt
  ++ "\n        - Total Liquid Assets: "
  ++ toString request.total_liquid_assets
  ++ "\n        - Zip Code: "
  ++ request.zip_code
  ++ " (for local property tax estimation)\n        - Credit Score: "
  ++ toString request.credit_score
  ++ " (for interest rate, in addition to current trends)\n        - User input: "
  ++ request.user_input
  ++ " (if applicable)\n\n        Based on this information, please provide the following:\n\n        1. **Affordability Assessment:**  Determine if the buyer can realistically afford a home and come up with a price range, considering their income, debts, and assets. Explain your reasoning.\n        2. **Estimated Monthly Mortgage Payment:** Calculate the estimated monthly mortgage payment (principal and interest) for a home in their price range, using the provided interest rate.\n        3. **Estimated Property Taxes:** Provide an estimate of annual property taxes for the given zip code. (Use a reasonable estimate if exact data isn\x27t available.)\n        4. **Estimated Homeowners Insurance:** Provide an estimate for annual homeowners insurance.\n        5. **Total Estimated Monthly Housing Costs:** Calculate the total estimated monthly housing costs (mortgage, property taxes, insurance).\n        6. **Recommendations:** Offer personalized recommendations to the buyer, such as:\n            - Whether they should adjust their desired home price range.\n            - Strategies for improving their financial situation (e.g., reducing debt, increasing savings).\n            - Advice on securing a mortgage.\n\n        Please provide a clear and concise assessment, using a professional tone, but limit wording as much as possible so users can get a quick response.\n        "

/-- The fixed text of the home-purchase prompt before the embedded
timestamp. -/
def housePromptHead : String :=
  "\n        You are a financial assistant specializing in home purchases. Provide a detailed assessment of whether a potential home buyer can afford a home, and offer personalized recommendations.\n        Please note that the current date is $"

/-- The text of the home-purchase prompt after the embedded timestamp:
a function of the request record only. -/
def housePromptTail (request : HousePurchaseRequest) : String :=
  ".\n        You will also have access to the Internet, please use this to find relevant data like costs of living and housing trends in the zip code. As well as up to date interest rates.\n\n        Here are the buyer\x27s details:\n        - Income: "
  ++ toString request.income
  ++ " per year\n        - Total Monthly Debt: "
  ++ toString request.total_monthly_debt
  ++ "\n        - Total Liquid Assets: "
  ++ toString request.total_liquid_assets
  ++ "\n        - Zip Code: "
  ++ request.zip_code
  ++ " (for local property tax estimation)\n        - Credit Score: "
  ++ toString request.credit_score
  ++ " (for interest rate, in addition to current trends)\n        - User input: "
  ++ request.user_input
  ++ " (if applicable)\n\n        Based on this information, please provide the following:\n\n        1. **Affordability Assessment:**  Determine if the buyer can realistically afford a home and come up with a price range, considering their income, debts, and assets. Explain your reasoning.\n        2. **Estimated Monthly Mortgage Payment:** Calculate the estimated monthly mortgage payment (principal and interest) for a home in their price range, using the provided interest rate.\n        3. **Estimated Property Taxes:** Provide an estimate of annual property taxes for the given zip code. (Use a reasonable estimate if exact data isn\x27t available.)\n        4. **Estimated Homeowners Insurance:** Provide an estimate for annual homeowners insurance.\n        5. **Total Estimated Monthly Housing Costs:** Calculate the total estimated monthly housing costs (mortgage, property taxes, insurance).\n        6. **Recommendations:** Offer personalized recommendations to the buyer, such as:\n            - Whether they should adjust their desired home price range.\n            - Strategies for improving their financial situation (e.g., reducing debt, increasing savings).\n            - Advice on securing a mortgage.\n\n        Please provide a clear and concise assessment, using a professional tone, but limit wording as much as possible so users can get a quick response.\n        "

/-- The retirement prompt f-string (lines 132-153): a pure function of
the request record, with no timestamp. -/
def retirementPrompt (request : RetirementRequest) : String :=
  "\n        You are a financial assistant providing retirement planning advice. A client has provided the following information:\n\n        - Current Age: "
  ++ toString request.current_age
  ++ " in years\n        - Retirement Age: "
  ++ toString request.retirement_age
  ++ " in years\n        - Current Cash Savings: $"
  ++ toString request.current_savings
  ++ "\n        - Current Investments: $"
  ++ toString request.current_investments
  ++ "\n        - Supplemental Income In Retirement: $"
  ++ toString request.supplemental_retirement_income
  ++ " (If applicable, does not include social security, please estimate this on your own in addition)\n        - Annual Income: $"
  ++ toString request.annual_income
  ++ " per year\n        - Desired Annual Income in Retirement: $"
  ++ toString request.desired_annual_income_in_retirement
  ++ " per year\n        - User input: $"
  ++ request.user_input
  ++ " (if applicable)\n\n        Based on this information, please provide a concise retirement plan addressing the following:\n\n        1.  **Estimated Total Savings Needed at Retirement:** Calculate the total amount of savings the client will need at retirement to maintain their desired income, considering inflation.\n        2.  **Annual Savings Required:** Determine the annual savings rate (as a percentage of income) the client needs to achieve their retirement goal.\n        3.  **Investment Strategy:** Suggest a general investment strategy (e.g., diversified portfolio of stocks and bonds) that aligns with their risk tolerance and time horizon.\n        4.  **Additional Considerations:** Offer any additional advice or recommendations, such as reducing debt or maximizing contributions to retirement accounts.\n        5.  **If Feasible/On track:** Most importantly, we want the user to know if their retirement plan is realistic or needs additional suggestions to be feasible.\n\n        Please present your response in a clear and easy-to-understand format. Limit wording as much as possible for quick understanding.\n        "

/-- An HTTP response as the route produces it: a status code and a
plain-text body. -/
structure HttpResponse where
  status : Nat
  body : String
deriving DecidableEq, Repr

/-- The /plan-home-purchase handler (lines 85-126): builds the prompt,
starts the conversation with a single user turn, and runs the driver.
The try/except wrapper turns any exception `e` escaping the driver into
`HTTPException(status_code=500, detail=str(e))`; a normal return is a
200 plain-text response with the final answer.  `none` models the
handler never returning because the driver loop is still running. -/
def generate_house_purchase_plan (impl : ToolImpls)
    (model : List Message → ChatResponse) (fuel : Nat) (now : String)
    (request : HousePurchaseRequest) : Option HttpResponse :=
  match get_ollama_response_with_web impl model fuel
      [{ role := "user", content := housePrompt now request }] with
  | DriverOutcome.answer _ text => some { status := 200, body := text }
  | DriverOutcome.toolFailure _ e => some { status := 500, body := e }
  | DriverOutcome.outOfFuel _ => none

/-- Tool implementations that always succeed with fixed result texts. -/
def okImpls : ToolImpls where
  web_search := fun _ => Except.ok "search-result"
  web_fetch := fun _ => Except.ok "fetch-result"

/-- Tool implementations that always raise (network failure), with the
textual message of the exception. -/
def failImpls : ToolImpls where
  web_search := fun _ => Except.error "web_search timed out"
  web_fetch := fun _ => Except.error "web_fetch timed out"

/-- A single opening user turn. -/
def initialUserMsg : Message :=
  { role := "user", content := "Can I afford a home?" }

/-- A tool-free assistant reply carrying a final answer. -/
def doneReply : Message :=
  { role := "assistant", content := "done" }

/-- A model that replies tool-free on every round. -/
def doneModel : List Message → ChatResponse :=
  fun _ => ChatResponse.mk doneReply

/-- An assistant reply issuing TWO tool requests in one turn:
first `web_search`, then `web_fetch`. -/
def twoCallReply : Message :=
  { role := "assistant", content := "",
    tool_calls := [ToolCall.mk (ToolFunction.mk "web_search" [("query", "mortgage rates")]),
                   ToolCall.mk (ToolFunction.mk "web_fetch" [("url", "example.com")])] }

/-- A model whose first reply issues the two tool requests above and
whose every later reply is tool-free. -/
def twoCallModel : List Message → ChatResponse := fun messages =>
  if messages.length ≤ 1 then ChatResponse.mk twoCallReply else ChatResponse.mk doneReply

/-- An assistant reply whose FIRST tool request names an unregistered
tool (`oracle`) and whose last request is the registered `web_search`. -/
def mixedReply : Message :=
  { role := "assistant", content := "",
    tool_calls := [ToolCall.mk (ToolFunction.mk "oracle" [("question", "rates")]),
                   ToolCall.mk (ToolFunction.mk "web_search" [("query", "rates")])] }

/-- A model whose first reply is `mixedReply` and whose every later
reply is tool-free. -/
def mixedModel : List Message → ChatResponse := fun messages =>
  if messages.length ≤ 1 then ChatResponse.mk mixedReply else ChatResponse.mk doneReply

/-- An assistant reply issuing a single `web_search` request. -/
def loopReply : Message :=
  { role := "assistant", content := "",
    tool_calls := [ToolCall.mk (ToolFunction.mk "web_search" [("query", "again")])] }

/-- A model that requests a tool on EVERY reply. -/
def loopModel : List Message → ChatResponse :=
  fun _ => ChatResponse.mk loopReply

/-- An assistant reply whose only tool request names the unregistered
tool `oracle`. -/
def oracleReply : Message :=
  { role := "assistant", content := "",
    tool_calls := [ToolCall.mk (ToolFunction.mk "oracle" [])] }

/-- A model whose first reply requests only `oracle` and whose every
later reply is tool-free. -/
def oracleModel : List Message → ChatResponse := fun messages =>
  if messages.length ≤ 1 then ChatResponse.mk oracleReply else ChatResponse.mk doneReply

/-- The tool turn the driver appends after a successful `web_search`
returning "search-result". -/
def searchToolMsg : Message :=
  { role := "tool", content := truncateResult "search-result",
    tool_name := some "web_search" }

/-- The synthetic turn the driver appends for the unregistered tool
`oracle`. -/
def oracleNotFoundMsg : Message :=
  { role := "tool", content := "Tool oracle not found", tool_name := some "oracle" }

/-- A tool result one character longer than the truncation limit. -/
def bigResult : String :=
  String.mk (List.replicate (truncLimit + 1) 'a')

/-- The end-to-end sample request of the spec (§8). -/
def sampleHouseRequest : HousePurchaseRequest :=
  { income := 90000, total_monthly_debt := 500, total_liquid_assets := 20000,
    zip_code := "94105", credit_score := 720 }

/-- A sample retirement request. -/
def sampleRetirementRequest : RetirementRequest :=
  { current_age := 40, retirement_age := 65, current_savings := 10000,
    current_investments := 50000, supplemental_retirement_income := 0,
    annual_income := 90000, desired_annual_income_in_retirement := 60000 }

/-- Round with a tool-free reply: the loop appends the reply, breaks,
and returns its content. -/
theorem driver_round_break (impl : ToolImpls) (model : List Message → ChatResponse)
    (fuel : Nat) (messages : List Message)
    (h : (model messages).message.tool_calls = []) :
    get_ollama_response_with_web impl model (fuel + 1) messages =
      DriverOutcome.answer (messages ++ [(model messages).message])
        (model messages).message.content := by
  simp [get_ollama_response_with_web, h]

/-- Round whose surviving (last) tool call is registered and succeeds:
the reply and the truncated tool result are appended and the loop
continues with one less fuel. -/
theorem driver_round_ok (impl : ToolImpls) (model : List Message → ChatResponse)
    (fuel : Nat) (messages : List Message) (tc : ToolCall) (tcs : List ToolCall)
    (f : List (String × String) → Except String String) (result : String)
    (h : (model messages).message.tool_calls = tc :: tcs)
    (hf : availableTools impl (lastCall tc tcs).function.name = some f)
    (hr : f (lastCall tc tcs).function.arguments = Except.ok result) :
    get_ollama_response_with_web impl model (fuel + 1) messages =
      get_ollama_response_with_web impl model fuel
        (messages ++ [(model messages).message,
          { role := "tool", content := truncateResult result,
            tool_name := some (lastCall tc tcs).function.name }]) := by
  simp [get_ollama_response_with_web, h, hf, hr]

/-- Round whose surviving (last) tool call is registered and raises:
the reply stays appended and the exception propagates out of the
driver. -/
theorem driver_round_error (impl : ToolImpls) (model : List Message → ChatResponse)
    (fuel : Nat) (messages : List Message) (tc : ToolCall) (tcs : List ToolCall)
    (f : List (String × String) → Except String String) (e : String)
    (h : (model messages).message.tool_calls = tc :: tcs)
    (hf : availableTools impl (lastCall tc tcs).function.name = some f)
    (hr : f (lastCall tc tcs).function.arguments = Except.error e) :
    get_ollama_response_with_web impl model (fuel + 1) messages =
      DriverOutcome.toolFailure (messages ++ [(model messages).message]) e := by
  simp [get_ollama_response_with_web, h, hf, hr]

/-- Round whose surviving (last) tool call is unregistered: the reply
and the synthetic not-found turn are appended and the loop continues. -/
theorem driver_round_notFound (impl : ToolImpls) (model : List Message → ChatResponse)
    (fuel : Nat) (messages : List Message) (tc : ToolCall) (tcs : List ToolCall)
    (h : (model messages).message.tool_calls = tc :: tcs)
    (hf : availableTools impl (lastCall tc tcs).function.name = none) :
    get_ollama_response_with_web impl model (fuel + 1) messages =
      get_ollama_response_with_web impl model fuel
        (messages ++ [(model messages).message,
          { role := "tool",
            content := "Tool " ++ (lastCall tc tcs).function.name ++ " not found",
            tool_name := some (lastCall tc tcs).function.name }]) := by
  simp [get_ollama_response_with_web, h, hf]

/-- C1: FALSE of the code (code bug).  When an assistant reply carries
two tool requests (web_search then web_fetch) against registered tools,
the driver appends a SINGLE ToolResultTurn — for the last request only —
instead of one per request in order: the lookup loop at lines 69-70
overwrites `function_to_call` on each iteration and the dispatch at
lines 71-78 sits outside the loop.  Evaluated on the failing input: the
final conversation holds exactly one tool turn, named `web_fetch`; the
`web_search` request never receives a result turn. -/
theorem c1_multi_request_single_result :
    get_ollama_response_with_web okImpls twoCallModel 3 [initialUserMsg] =
      DriverOutcome.answer
        [initialUserMsg, twoCallReply,
         { role := "tool", content := truncateResult "fetch-result",
           tool_name := some "web_fetch" },
         doneReply] "done"
    ∧ ((get_ollama_response_with_web okImpls twoCallModel 3
          [initialUserMsg]).conversation.filter
            (fun m => m.role == "tool")).length = 1
    ∧ twoCallReply.tool_calls.length = 2 := by
  refine ⟨rfl, rfl, rfl⟩

/-- C2: for a request whose model reply is tool-free, the driver
terminates in that very round and returns that reply's content as the
final answer; and in general a normal (answer) termination happens only
on an assistant reply with zero tool_calls, whose content is the
returned text. -/
theorem c2_tool_free_single_round (impl : ToolImpls)
    (model : List Message → ChatResponse) (fuel : Nat) (messages : List Message)
    (h : (model messages).message.tool_calls = []) :
    (get_ollama_response_with_web impl model (fuel + 1) messages =
      DriverOutcome.answer (messages ++ [(model messages).message])
        (model messages).message.content)
    ∧ ∀ (fuel2 : Nat) (ms conv : List Message) (text : String),
        get_ollama_response_with_web impl model fuel2 ms =
          DriverOutcome.answer conv text →
        ∃ reply rest, conv = rest ++ [reply] ∧ reply.tool_calls = [] ∧
          text = reply.content := by
  constructor
  · exact driver_round_break impl model fuel messages h
  · intro fuel2
    induction fuel2 with
    | zero =>
      intro ms conv text hrun
      simp [get_ollama_response_with_web] at hrun
    | succ n ih =>
      intro ms conv text hrun
      cases htc : (model ms).message.tool_calls with
      | nil =>
        rw [driver_round_break impl model n ms htc] at hrun
        injection hrun with h1 h2
        exact ⟨(model ms).message, ms, h1.symm, htc, h2.symm⟩
      | cons tc tcs =>
        cases hav : availableTools impl (lastCall tc tcs).function.name with
        | none =>
          rw [driver_round_notFound impl model n ms tc tcs htc hav] at hrun
          exact ih _ _ _ hrun
        | some f =>
          cases hr : f (lastCall tc tcs).function.arguments with
          | error e =>
            rw [driver_round_error impl model n ms tc tcs f e htc hav hr] at hrun
            cases hrun
          | ok result =>
            rw [driver_round_ok impl model n ms tc tcs f result htc hav hr] at hrun
            exact ih _ _ _ hrun

/-- Closed instance of C2: a tool-free model against the opening user
turn terminates after one round with the reply's content. -/
theorem c2_witness :
    (get_ollama_response_with_web okImpls doneModel 1 [initialUserMsg] =
      DriverOutcome.answer [initialUserMsg, doneReply] "done")
    ∧ ∀ (fuel2 : Nat) (ms conv : List Message) (text : String),
        get_ollama_response_with_web okImpls doneModel fuel2 ms =
          DriverOutcome.answer conv text →
        ∃ reply rest, conv = rest ++ [reply] ∧ reply.tool_calls = [] ∧
          text = reply.content :=
  c2_tool_free_single_round okImpls doneModel 0 [initialUserMsg] rfl

/-- C3 counterexample: there is no configurable round limit and no
RoundLimitExceeded outcome in the code.  With a model that requests a
registered tool on every reply, the driver does NOT stop after round 1:
given fuel for two rounds it executes a full second round (the
conversation grows from 1 to 5 turns) and is still looping. -/
theorem c3_counterexample :
    get_ollama_response_with_web okImpls loopModel 2 [initialUserMsg] =
      DriverOutcome.outOfFuel
        [initialUserMsg, loopReply, searchToolMsg, loopReply, searchToolMsg] := by
  rfl

/-- C3 amended: the observed driver has no round bound at all — with a
model that requests a registered, succeeding tool on every reply, the
loop never terminates: for every fuel n it is still running after n full
rounds, each round having appended its two turns. -/
theorem c3_amended_unbounded_loop (fuel : Nat) : ∀ messages : List Message,
    ∃ t : List Message,
      get_ollama_response_with_web okImpls loopModel fuel messages =
        DriverOutcome.outOfFuel (messages ++ t) ∧ t.length = 2 * fuel := by
  induction fuel with
  | zero =>
    intro ms
    exact ⟨[], by simp [get_ollama_response_with_web]⟩
  | succ n ih =>
    intro ms
    obtain ⟨t, ht, hlen⟩ := ih (ms ++ [loopReply, searchToolMsg])
    refine ⟨[loopReply, searchToolMsg] ++ t, ?_, by simp [hlen]; omega⟩
    rw [driver_round_ok okImpls loopModel n ms
      (ToolCall.mk (ToolFunction.mk "web_search" [("query", "again")])) []
      okImpls.web_search "search-result" rfl rfl rfl]
    rw [show (ms ++ [(loopModel ms).message,
        { role := "tool", content := truncateResult "search-result",
          tool_name := some (lastCall (ToolCall.mk (ToolFunction.mk "web_search"
            [("query", "again")])) []).function.name }]) =
      ms ++ [loopReply, searchToolMsg] from rfl]
    rw [ht]
    simp

/-- C4 counterexample: an assistant reply requesting the unregistered
tool `oracle` FIRST and the registered `web_search` last gets no
synthetic not-found turn for `oracle` at all — only the last request is
ever looked up — so the claim does not hold for every unknown-named
request. -/
theorem c4_counterexample :
    get_ollama_response_with_web okImpls mixedModel 3 [initialUserMsg] =
      DriverOutcome.answer
        [initialUserMsg, mixedReply, searchToolMsg, doneReply] "done"
    ∧ ((get_ollama_response_with_web okImpls mixedModel 3
          [initialUserMsg]).conversation.filter
            (fun m => m.tool_name == some "oracle")) = []
    ∧ (mixedReply.tool_calls.map (fun tool_call => tool_call.function.name)) =
        ["oracle", "web_search"] := by
  refine ⟨rfl, rfl, rfl⟩

/-- C4 amended: when the surviving (last) tool request of the reply
names a tool outside the registry, the driver does not fail the
request: it appends the reply and a synthetic ToolResultTurn whose
content names the tool as not found, and continues the loop with
another round. -/
theorem c4_amended_last_unknown_recovers (impl : ToolImpls)
    (model : List Message → ChatResponse) (fuel : Nat) (messages : List Message)
    (tc : ToolCall) (tcs : List ToolCall)
    (h : (model messages).message.tool_calls = tc :: tcs)
    (hf : availableTools impl (lastCall tc tcs).function.name = none) :
    get_ollama_response_with_web impl model (fuel + 1) messages =
      get_ollama_response_with_web impl model fuel
        (messages ++ [(model messages).message,
          { role := "tool",
            content := "Tool " ++ (lastCall tc tcs).function.name ++ " not found",
            tool_name := some (lastCall tc tcs).function.name }]) :=
  driver_round_notFound impl model fuel messages tc tcs h hf

/-- Closed instance of C4 amended: a reply requesting only `oracle`
makes the driver continue with the synthetic not-found turn appended. -/
theorem c4_witness :
    get_ollama_response_with_web okImpls oracleModel 1 [initialUserMsg] =
      get_ollama_response_with_web okImpls oracleModel 0
        [initialUserMsg, oracleReply, oracleNotFoundMsg] :=
  c4_amended_last_unknown_recovers okImpls oracleModel 0 [initialUserMsg]
    (ToolCall.mk (ToolFunction.mk "oracle" [])) [] rfl rfl

/-- C5: when the dispatched registered tool raises, the failure is not
caught inside the driver — the round ends in a `toolFailure` outcome
carrying the exception's message — and the /plan-home-purchase handler
surfaces it as a status-500 response whose body is that message. -/
theorem c5_tool_failure_500 (impl : ToolImpls)
    (model : List Message → ChatResponse) (fuel : Nat) (now : String)
    (request : HousePurchaseRequest) (tc : ToolCall) (tcs : List ToolCall)
    (f : List (String × String) → Except String String) (e : String)
    (h : (model [{ role := "user", content := housePrompt now request }]).message.tool_calls =
          tc :: tcs)
    (hf : availableTools impl (lastCall tc tcs).function.name = some f)
    (hr : f (lastCall tc tcs).function.arguments = Except.error e) :
    get_ollama_response_with_web impl model (fuel + 1)
        [{ role := "user", content := housePrompt now request }] =
      DriverOutcome.toolFailure
        ([{ role := "user", content := housePrompt now request }] ++
          [(model [{ role := "user", content := housePrompt now request }]).message]) e
    ∧ generate_house_purchase_plan impl model (fuel + 1) now request =
        some { status := 500, body := e } := by
  have hstep := driver_round_error impl model fuel
    [{ role := "user", content := housePrompt now request }] tc tcs f e h hf hr
  exact ⟨hstep, by simp [generate_house_purchase_plan, hstep]⟩

/-- Closed instance of C5: raising web tools make the home-purchase
endpoint answer 500 with the exception text as body. -/
theorem c5_witness :
    get_ollama_response_with_web failImpls loopModel 1
        [{ role := "user",
           content := housePrompt "2026-10-12T00:00:00" sampleHouseRequest }] =
      DriverOutcome.toolFailure
        [{ role := "user",
           content := housePrompt "2026-10-12T00:00:00" sampleHouseRequest },
         loopReply] "web_search timed out"
    ∧ generate_house_purchase_plan failImpls loopModel 1 "2026-10-12T00:00:00"
        sampleHouseRequest = some { status := 500, body := "web_search timed out" } :=
  c5_tool_failure_500 failImpls loopModel 0 "2026-10-12T00:00:00" sampleHouseRequest
    (ToolCall.mk (ToolFunction.mk "web_search" [("query", "again")])) []
    failImpls.web_search "web_search timed out" rfl rfl rfl

/-- C6: a tool result longer than the fixed maximum (8000 * 4
characters) is cut to exactly that maximum, a result not exceeding it is
left unchanged, and the driver appends the truncated text as the tool
turn's content. -/
theorem c6_truncation :
    (∀ s : String, truncLimit < s.data.length →
      (truncateResult s).data.length = truncLimit)
    ∧ (∀ s : String, s.data.length ≤ truncLimit → truncateResult s = s)
    ∧ ∀ (impl : ToolImpls) (model : List Message → ChatResponse) (fuel : Nat)
        (messages : List Message) (tc : ToolCall) (tcs : List ToolCall)
        (f : List (String × String) → Except String String) (result : String),
        (model messages).message.tool_calls = tc :: tcs →
        availableTools impl (lastCall tc tcs).function.name = some f →
        f (lastCall tc tcs).function.arguments = Except.ok result →
        get_ollama_response_with_web impl model (fuel + 1) messages =
          get_ollama_response_with_web impl model fuel
            (messages ++ [(model messages).message,
              { role := "tool", content := truncateResult result,
                tool_name := some (lastCall tc tcs).function.name }]) := by
  refine ⟨?_, ?_, ?_⟩
  · intro s hs
    show (s.data.take truncLimit).length = truncLimit
    rw [List.length_take]
    omega
  · intro s hs
    cases s with
    | mk data =>
      simp only [truncateResult]
      congr 1
      exact List.take_of_length_le hs
  · intro impl model fuel messages tc tcs f result h hf hr
    exact driver_round_ok impl model fuel messages tc tcs f result h hf hr

/-- Closed instance of C6: a 32001-character result is cut to exactly
32000 characters, a 5-character one is untouched, and a concrete driver
round appends the truncated content. -/
theorem c6_witness :
    ((truncLimit < bigResult.data.length ∧
        (truncateResult bigResult).data.length = truncLimit)
    ∧ (("short" : String).data.length ≤ truncLimit ∧
        truncateResult "short" = "short"))
    ∧ get_ollama_response_with_web okImpls loopModel 1 [initialUserMsg] =
        get_ollama_response_with_web okImpls loopModel 0
          [initialUserMsg, loopReply, searchToolMsg] := by
  have h1 : truncLimit < bigResult.data.length := by
    show truncLimit < (List.replicate (truncLimit + 1) 'a').length
    rw [List.length_replicate]
    omega
  have h2 : ("short" : String).data.length ≤ truncLimit := by
    simp [truncLimit]
  exact ⟨⟨⟨h1, c6_truncation.1 bigResult h1⟩, ⟨h2, c6_truncation.2.1 "short" h2⟩⟩,
    c6_truncation.2.2 okImpls loopModel 0 [initialUserMsg]
      (ToolCall.mk (ToolFunction.mk "web_search" [("query", "again")])) []
      okImpls.web_search "search-result" rfl rfl rfl⟩

/-- C7: the stream relay yields exactly the fragment at each position of
the model's fragment sequence (no reordering, merging, dropping), the
concatenation of the delivered fragments in order equals the model's
full answer, and on the fragments "Afford", "ability: yes", "." the
caller-observed concatenation is "Affordability: yes.". -/
theorem c7_stream_relay_order :
    (∀ (chunks : List ChatChunk) (i : Nat),
        (generate_ollama_stream chunks).get? i =
          (chunks.get? i).map (fun chunk => chunk.message.content))
    ∧ (∀ chunks : List ChatChunk,
        String.join (generate_ollama_stream chunks) = fullModelAnswer chunks)
    ∧ String.join (generate_ollama_stream
        [ChatChunk.mk { role := "assistant", content := "Afford" },
         ChatChunk.mk { role := "assistant", content := "ability: yes" },
         ChatChunk.mk { role := "assistant", content := "." }]) =
      "Affordability: yes." := by
  refine ⟨?_, ?_, ?_⟩
  · intro chunks i
    simp [generate_ollama_stream]
  · intro chunks
    simp [String.join, generate_ollama_stream, fullModelAnswer, List.foldl_map]
  · rfl

/-- C8: the conversation is append-only — whatever the model and the
tools do and however many rounds run, the driver's resulting
conversation extends the starting one: every already-appended turn is
still there, unchanged and in place, and growth happens only at the
end. -/
theorem c8_conversation_append_only (impl : ToolImpls)
    (model : List Message → ChatResponse) :
    ∀ (fuel : Nat) (messages : List Message),
      ∃ t : List Message,
        (get_ollama_response_with_web impl model fuel messages).conversation =
          messages ++ t := by
  intro fuel
  induction fuel with
  | zero =>
    intro ms
    exact ⟨[], by simp [get_ollama_response_with_web, DriverOutcome.conversation]⟩
  | succ n ih =>
    intro ms
    cases htc : (model ms).message.tool_calls with
    | nil =>
      refine ⟨[(model ms).message], ?_⟩
      rw [driver_round_break impl model n ms htc]
      rfl
    | cons tc tcs =>
      cases hav : availableTools impl (lastCall tc tcs).function.name with
      | none =>
        obtain ⟨t, ht⟩ := ih (ms ++ [(model ms).message,
          { role := "tool",
            content := "Tool " ++ (lastCall tc tcs).function.name ++ " not found",
            tool_name := some (lastCall tc tcs).function.name }])
        refine ⟨[(model ms).message,
          { role := "tool",
            content := "Tool " ++ (lastCall tc tcs).function.name ++ " not found",
            tool_name := some (lastCall tc tcs).function.name }] ++ t, ?_⟩
        rw [driver_round_notFound impl model n ms tc tcs htc hav, ht]
        simp
      | some f =>
        cases hr : f (lastCall tc tcs).function.arguments with
        | error e =>
          refine ⟨[(model ms).message], ?_⟩
          rw [driver_round_error impl model n ms tc tcs f e htc hav hr]
          rfl
        | ok result =>
          obtain ⟨t, ht⟩ := ih (ms ++ [(model ms).message,
            { role := "tool", content := truncateResult result,
              tool_name := some (lastCall tc tcs).function.name }])
          refine ⟨[(model ms).message,
            { role := "tool", content := truncateResult result,
              tool_name := some (lastCall tc tcs).function.name }] ++ t, ?_⟩
          rw [driver_round_ok impl model n ms tc tcs f result htc hav hr, ht]
          simp

/-- The home-purchase prompt splits as fixed head, then the embedded
timestamp, then a tail depending only on the request record. -/
theorem housePrompt_factorization (now : String) (request : HousePurchaseRequest) :
    housePrompt now request =
      housePromptHead ++ now ++ housePromptTail request := by
  simp [housePrompt, housePromptHead, housePromptTail, String.append_assoc]

/-- C9: the prompt builders are deterministic — the retirement prompt is
a pure function of the request record alone, and the tool-augmented
home-purchase prompt is a pure function of the record and the embedded
current timestamp, differing across calls on the same record exactly in
that timestamp (fixed text before it, record-determined text after
it). -/
theorem c9_prompt_determinism :
    (∀ r₁ r₂ : RetirementRequest, r₁ = r₂ →
      retirementPrompt r₁ = retirementPrompt r₂)
    ∧ (∀ (now : String) (request : HousePurchaseRequest),
        housePrompt now request =
          housePromptHead ++ now ++ housePromptTail request)
    ∧ ∀ (now₁ now₂ : String) (request : HousePurchaseRequest),
        housePrompt now₁ request = housePrompt now₂ request ↔ now₁ = now₂ := by
  refine ⟨fun r₁ r₂ h => by rw [h], housePrompt_factorization, ?_⟩
  intro now₁ now₂ request
  constructor
  · intro h
    rw [housePrompt_factorization now₁ request,
        housePrompt_factorization now₂ request] at h
    have hd := congrArg String.data h
    simp only [String.data_append, List.append_assoc] at hd
    have hd2 := List.append_cancel_left hd
    have hd3 := List.append_cancel_right hd2
    exact String.ext hd3
  · intro h
    rw [h]

/-- Closed instance of C9 at the sample records and a fixed
timestamp. -/
theorem c9_witness :
    retirementPrompt sampleRetirementRequest =
      retirementPrompt sampleRetirementRequest
    ∧ housePrompt "2026-10-12T00:00:00" sampleHouseRequest =
        housePromptHead ++ "2026-10-12T00:00:00" ++
          housePromptTail sampleHouseRequest :=
  ⟨c9_prompt_determinism.1 sampleRetirementRequest sampleRetirementRequest rfl,
   c9_prompt_determinism.2.1 "2026-10-12T00:00:00" sampleHouseRequest⟩

/-- C10: a raising registered tool aborts the request with the
conversation already mutated — the triggering assistant turn was
appended before the invocation and survives in the failure state, which
gained exactly that one turn and ends on it, with no ToolResultTurn for
the round. -/
theorem c10_failure_not_atomic (impl : ToolImpls)
    (model : List Message → ChatResponse) (fuel : Nat) (messages : List Message)
    (tc : ToolCall) (tcs : List ToolCall)
    (f : List (String × String) → Except String String) (e : String)
    (h : (model messages).message.tool_calls = tc :: tcs)
    (hf : availableTools impl (lastCall tc tcs).function.name = some f)
    (hr : f (lastCall tc tcs).function.arguments = Except.error e) :
    get_ollama_response_with_web impl model (fuel + 1) messages =
      DriverOutcome.toolFailure (messages ++ [(model messages).message]) e
    ∧ (messages ++ [(model messages).message]).length = messages.length + 1
    ∧ (messages ++ [(model messages).message]).getLast? =
        some (model messages).message := by
  exact ⟨driver_round_error impl model fuel messages tc tcs f e h hf hr,
    by simp, by simp⟩

/-- Closed instance of C10: the failure state holds the opening user
turn plus the appended assistant turn and nothing else. -/
theorem c10_witness :
    get_ollama_response_with_web failImpls loopModel 1 [initialUserMsg] =
      DriverOutcome.toolFailure [initialUserMsg, loopReply] "web_search timed out"
    ∧ ([initialUserMsg] ++ [loopReply]).length = 2
    ∧ ([initialUserMsg] ++ [loopReply]).getLast? = some loopReply :=
  c10_failure_not_atomic failImpls loopModel 0 [initialUserMsg]
    (ToolCall.mk (ToolFunction.mk "web_search" [("query", "again")])) []
    failImpls.web_search "web_search timed out" rfl rfl rfl
